import Mathlib

/-!
Verification of the evaluation subsystem of the aitelier repository.

The definitions below are a shallow embedding of the TypeScript source:

* `generateCompletion`, `startEvaluation` — `packages/web/src/app/(app)/eval/actions.ts`
  (the Together.ai fetch is abstracted as a pure function from model id and
  messages to an HTTP response; the Supabase store is a `Db` record of the
  query results the action reads plus the `evaluations` table it writes).
* `getEvaluationItems` / `toEvaluationItem`, `saveEvaluationScore` — same file.
* `formatExamplesToJSONL` — the Together provider module.
* `canStart` — the client-side guard in `eval-setup.tsx`.
* `aggregateResults` and the split-planner fragments are modelled from the
  spec where the implementing source file is not part of the provided tree;
  their doc comments say so explicitly.
-/

namespace Aitelier

/-- A chat message as sent to the completion provider. -/
structure Message where
  role : String
  content : String
deriving DecidableEq, Repr

/-- One element of `data.choices` in the provider's JSON response;
`content` is `choices[i].message?.content` (`none` when the message or its
content is missing). -/
structure ChatChoice where
  content : Option String
deriving DecidableEq, Repr

/-- The provider's HTTP response, as observed by `generateCompletion`:
the `ok` flag, the error body text used when `ok` is false, and the parsed
`choices` array used when `ok` is true. -/
structure FetchResponse where
  ok : Bool
  errText : String
  choices : List ChatChoice
deriving DecidableEq, Repr

/-- The completion provider as a pure function: model id and messages to
HTTP response. -/
def Fetch : Type := String → List Message → FetchResponse

/-- Embedding of `generateCompletion` (eval/actions.ts): on a non-ok
response it throws `Together.ai API error: <body>`; on an ok response it
returns `data.choices[0]?.message?.content ?? ''`. -/
def generateCompletion (resp : FetchResponse) : Except String String :=
  if resp.ok then
    Except.ok ((resp.choices.head?.bind ChatChoice.content).getD "")
  else
    Except.error ("Together.ai API error: " ++ resp.errText)

/-- Whether an `Except` result is an error. -/
def isError : Except String String → Bool
  | Except.error _ => true
  | Except.ok _ => false

/-- The `type` discriminator of a model option (`'baseline' | 'fine-tuned'`). -/
inductive ModelKind
  | baseline
  | fineTuned
deriving DecidableEq, Repr

/-- Embedding of `ModelOption` (eval/actions.ts). -/
structure ModelOption where
  id : String
  label : String
  type : ModelKind
  model_id : String
deriving DecidableEq, Repr

/-- A completed training-run row as read by `getEvalSetupData`
(`id`, `model_id`), in query order. -/
structure TrainingRun where
  id : String
  model_id : Option String
deriving DecidableEq, Repr

/-- An example row as read by `startEvaluation` (`id`, `input`) together
with its `split` column, which the query filters on. -/
structure ExampleRow where
  id : String
  input : String
  split : Option String
deriving DecidableEq, Repr

/-- The project row read by `startEvaluation`: `base_model`,
`system_prompt`, and `provider_config.api_key`. -/
structure Project where
  base_model : String
  system_prompt : Option String
  api_key : Option String
deriving DecidableEq, Repr

/-- An evaluation record as inserted by `startEvaluation`. -/
structure EvalRecord where
  project_id : String
  training_run_id : String
  example_id : String
  model_output : String
  baseline_output : String
deriving DecidableEq, Repr

/-- The slice of the store that `startEvaluation` touches: the project row
for the requested project id, the project's examples and completed
training runs (each list in its query order), and the `evaluations` table. -/
structure Db where
  project : Option Project
  examples : List ExampleRow
  runs : List TrainingRun
  evaluations : List EvalRecord
deriving DecidableEq, Repr

/-- The validation examples of the project: the result of the
`.eq('split', 'val')` query in `startEvaluation`. -/
def valExamples (db : Db) : List ExampleRow :=
  db.examples.filter (fun e => e.split == some "val")

/-- Embedding of the model-option list built by `getEvalSetupData`: a
baseline option followed by one option per completed run, numbered from
the most recent down. -/
def buildModelOptions (baseModel : String) (runs : List TrainingRun) : List ModelOption :=
  { id := "baseline"
  , label := "Baseline (" ++ baseModel ++ ")"
  , type := ModelKind.baseline
  , model_id := baseModel } ::
  runs.enum.map (fun p =>
    { id := p.2.id
    , label := "Version " ++ toString (runs.length - p.1) ++ " (" ++
        (p.2.model_id.getD "").take 20 ++ "...)"
    , type := ModelKind.fineTuned
    , model_id := p.2.model_id.getD "" })

/-- The message list `startEvaluation` sends for one example: the project
system prompt when truthy (non-null and non-empty), then the example input
as the user message. -/
def mkMessages (systemPrompt : Option String) (input : String) : List Message :=
  (match systemPrompt with
   | some s => if s = "" then [] else [{ role := "system", content := s }]
   | none => []) ++
  [{ role := "user", content := input }]

/-- The generation loop of `startEvaluation`: for each example in order,
call the provider for model A then model B; on the first failure stop with
that error; otherwise accumulate one record per example, routing output A
to `model_output` exactly when model A is the fine-tuned one. -/
def generateRecords (fetchF : Fetch) (modelA modelB : ModelOption)
    (projectId trainingRunId : String) (systemPrompt : Option String) :
    List ExampleRow → Except String (List EvalRecord)
  | [] => Except.ok []
  | ex :: rest =>
    match generateCompletion (fetchF modelA.model_id (mkMessages systemPrompt ex.input)) with
    | Except.error e => Except.error e
    | Except.ok outA =>
      match generateCompletion (fetchF modelB.model_id (mkMessages systemPrompt ex.input)) with
      | Except.error e => Except.error e
      | Except.ok outB =>
        match generateRecords fetchF modelA modelB projectId trainingRunId systemPrompt rest with
        | Except.error e => Except.error e
        | Except.ok rest' =>
          Except.ok
            ({ project_id := projectId
             , training_run_id := trainingRunId
             , example_id := ex.id
             , model_output := if modelA.type = ModelKind.fineTuned then outA else outB
             , baseline_output := if modelA.type = ModelKind.baseline then outA else outB } :: rest')

/-- The result shape of `startEvaluation`. -/
structure StartResult where
  success : Bool
  evaluationId : Option String
  error : Option String
deriving DecidableEq, Repr

/-- A failed `startEvaluation` result with the given message. -/
def failResult (msg : String) : StartResult :=
  { success := false, evaluationId := none, error := some msg }

/-- Embedding of `startEvaluation` (eval/actions.ts): auth check, project
and API-key lookup, validation-example query, model-option resolution,
the all-or-nothing generation loop, and the single bulk insert at the end.
Returns the action result together with the store after the call. -/
def startEvaluation (user : Option String) (db : Db) (projectId modelAId modelBId : String)
    (fetchF : Fetch) : StartResult × Db :=
  match user with
  | none => (failResult "Not authenticated", db)
  | some _ =>
    match db.project with
    | none => (failResult "Project not found", db)
    | some project =>
      match project.api_key with
      | none => (failResult "API key not configured", db)
      | some apiKey =>
        if apiKey = "" then (failResult "API key not configured", db)
        else
          let examples := valExamples db
          if examples.isEmpty then (failResult "No validation examples found", db)
          else
            let modelOptions := buildModelOptions project.base_model db.runs
            match modelOptions.find? (fun m => m.id == modelAId),
                  modelOptions.find? (fun m => m.id == modelBId) with
            | some modelA, some modelB =>
              let trainingRunId :=
                if modelA.type = ModelKind.fineTuned then modelAId else modelBId
              match generateRecords fetchF modelA modelB projectId trainingRunId
                      project.system_prompt examples with
              | Except.error e => (failResult ("Failed to generate outputs: " ++ e), db)
              | Except.ok records =>
                match records with
                | [] => (failResult "Failed to save evaluation records", db)
                | r :: _ =>
                  ({ success := true, evaluationId := some r.training_run_id, error := none },
                   { db with evaluations := db.evaluations ++ records })
            | _, _ => (failResult "Invalid model selection", db)

/-- An evaluations row as read by `getEvaluationItems`. -/
structure EvalItemRow where
  id : String
  example_id : String
  model_output : Option String
  baseline_output : Option String
  preferred : Option String
  model_score : Option Nat
  baseline_score : Option Nat
deriving DecidableEq, Repr

/-- The item shape `getEvaluationItems` returns. -/
structure EvaluationItem where
  id : String
  example_id : String
  input : String
  output_a : String
  output_b : String
  is_a_model : Bool
  preferred : Option String
  model_score : Option Nat
  baseline_score : Option Nat
deriving DecidableEq, Repr

/-- The side-assignment bit of `getEvaluationItems`:
`evalRecord.id.charCodeAt(0) % 2 === 0`. For an empty id, `charCodeAt(0)`
is `NaN` in JavaScript and `NaN % 2 === 0` is false. -/
def isAModelOf (id : String) : Bool :=
  match id.data with
  | [] => false
  | c :: _ => c.toNat % 2 == 0

/-- The per-row mapping inside `getEvaluationItems`: look up the example
input, derive the side bit from the row id, and place
`model_output`/`baseline_output` (nulls coalesced to `''`) into
`output_a`/`output_b` according to that bit. -/
def toEvaluationItem (exampleMap : String → Option String) (r : EvalItemRow) : EvaluationItem :=
  let isA := isAModelOf r.id
  { id := r.id
  , example_id := r.example_id
  , input := (exampleMap r.example_id).getD ""
  , output_a := if isA then r.model_output.getD "" else r.baseline_output.getD ""
  , output_b := if isA then r.baseline_output.getD "" else r.model_output.getD ""
  , is_a_model := isA
  , preferred := r.preferred
  , model_score := r.model_score
  , baseline_score := r.baseline_score }

/-- Embedding of `getEvaluationItems`: map every fetched row through
`toEvaluationItem` (the example-input lookup is the map built from the
examples query). -/
def getEvaluationItems (exampleMap : String → Option String) (evals : List EvalItemRow) :
    List EvaluationItem :=
  evals.map (toEvaluationItem exampleMap)

/-- The rater's left/right choice passed to `saveEvaluationScore`. -/
inductive ABChoice
  | a
  | b
  | tie
deriving DecidableEq, Repr

/-- The preference translation of `saveEvaluationScore`: tie stays tie,
side a means the model exactly when A is the model, side b the opposite. -/
def modelPreferred (isAModel : Bool) : ABChoice → String
  | ABChoice.tie => "tie"
  | ABChoice.a => if isAModel then "model" else "baseline"
  | ABChoice.b => if isAModel then "baseline" else "model"

/-- The update object `saveEvaluationScore` builds: `preferred` and
`scored_by` always, `model_score`/`baseline_score` only when the
corresponding side score was provided. -/
structure UpdateData where
  preferred : String
  scored_by : String
  model_score : Option Nat
  baseline_score : Option Nat
deriving DecidableEq, Repr

/-- Building the update object from the call's arguments:
`modelScore = isAModel ? scoreA : scoreB` and symmetrically. -/
def buildUpdateData (userId : String) (isAModel : Bool) (choice : ABChoice)
    (scoreA scoreB : Option Nat) : UpdateData :=
  { preferred := modelPreferred isAModel choice
  , scored_by := userId
  , model_score := if isAModel then scoreA else scoreB
  , baseline_score := if isAModel then scoreB else scoreA }

/-- An evaluations row as mutated by `saveEvaluationScore`. -/
structure ScoreRow where
  id : String
  preferred : Option String
  scored_by : Option String
  model_score : Option Nat
  baseline_score : Option Nat
deriving DecidableEq, Repr

/-- The effect of `.update(updateData).eq('id', evaluationId)` on one row:
rows with another id are untouched; on the matching row every key present
in the update object replaces the stored value and absent keys leave it. -/
def applyUpdate (evaluationId : String) (u : UpdateData) (row : ScoreRow) : ScoreRow :=
  if row.id = evaluationId then
    { row with
      preferred := some u.preferred
    , scored_by := some u.scored_by
    , model_score := match u.model_score with
        | some v => some v
        | none => row.model_score
    , baseline_score := match u.baseline_score with
        | some v => some v
        | none => row.baseline_score }
  else row

/-- The result shape of `saveEvaluationScore`. -/
structure SaveResult where
  success : Bool
  error : Option String
deriving DecidableEq, Repr

/-- Embedding of `saveEvaluationScore`: auth check, translate the A/B
choice and scores through the side bit, then update the matching row of
the evaluations table. -/
def saveEvaluationScore (user : Option String) (evaluationId : String) (isAModel : Bool)
    (choice : ABChoice) (scoreA scoreB : Option Nat) (rows : List ScoreRow) :
    SaveResult × List ScoreRow :=
  match user with
  | none => ({ success := false, error := some "Not authenticated" }, rows)
  | some uid =>
    ({ success := true, error := none },
     rows.map (applyUpdate evaluationId (buildUpdateData uid isAModel choice scoreA scoreB)))

/-- The client-side guard of `eval-setup.tsx`:
`modelA && modelB && modelA !== modelB && valExampleCount > 0 && !isGenerating`
(string truthiness is non-emptiness). -/
def canStart (modelA modelB : String) (valExampleCount : Nat) (isGenerating : Bool) : Bool :=
  !(modelA = "") && !(modelB = "") && !(modelA = modelB) &&
    decide (0 < valExampleCount) && !isGenerating

/-- An example as passed to `formatExamplesToJSONL`. -/
structure ExportExample where
  input : String
  output : String
  rewrite : Option String
deriving DecidableEq, Repr

/-- Lower-case hex digit of a nibble, as in `JSON.stringify` escapes. -/
def hexDigit (n : Nat) : Char :=
  if n < 10 then Char.ofNat (48 + n) else Char.ofNat (87 + n)

/-- `JSON.stringify` escaping of one character inside a string literal. -/
def escChar (c : Char) : List Char :=
  if c = '"' then ['\\', '"']
  else if c = '\\' then ['\\', '\\']
  else if c = Char.ofNat 8 then ['\\', 'b']
  else if c = Char.ofNat 9 then ['\\', 't']
  else if c = Char.ofNat 10 then ['\\', 'n']
  else if c = Char.ofNat 12 then ['\\', 'f']
  else if c = Char.ofNat 13 then ['\\', 'r']
  else if c.toNat < 32 then
    ['\\', 'u', '0', '0', hexDigit (c.toNat / 16), hexDigit (c.toNat % 16)]
  else [c]

/-- `JSON.stringify` of a string value: quotes around the escaped body. -/
def jsonQuote (s : String) : List Char :=
  '"' :: s.data.flatMap escChar ++ ['"']

/-- `Array.prototype.join(sep)` on character lists. -/
def joinSep (sep : List Char) : List (List Char) → List Char
  | [] => []
  | [x] => x
  | x :: xs => x ++ sep ++ joinSep sep xs

/-- `JSON.stringify` of one `{role, content}` message object. -/
def stringifyMessage (m : Message) : List Char :=
  "\x7b\"role\":".data ++ jsonQuote m.role ++ ",\"content\":".data ++ jsonQuote m.content ++
    "\x7d".data

/-- `JSON.stringify` of a `{messages:[...]}` training example. -/
def stringifyTrainingExample (ms : List Message) : List Char :=
  "\x7b\"messages\":[".data ++ joinSep [','] (ms.map stringifyMessage) ++ "]\x7d".data

/-- The message list `formatExamplesToJSONL` builds for one example: the
system prompt when truthy, then the user message with the input, then the
assistant message with `rewrite ?? output`. -/
def exportMessages (systemPrompt : Option String) (ex : ExportExample) : List Message :=
  (match systemPrompt with
   | some s => if s = "" then [] else [{ role := "system", content := s }]
   | none => []) ++
  [{ role := "user", content := ex.input },
   { role := "assistant", content := ex.rewrite.getD ex.output }]

/-- Embedding of `formatExamplesToJSONL` (Together provider module): one
serialized `{messages:[...]}` object per example, joined with `'\n'`. -/
def formatExamplesToJSONL (examples : List ExportExample) (systemPrompt : Option String) :
    String :=
  String.mk (joinSep ['\n']
    (examples.map (fun ex => stringifyTrainingExample (exportMessages systemPrompt ex))))

/-- The message list as the spec's sentence describes it: an optional
leading system message containing the provided system prompt, then a user
message containing the example's input, then an assistant message
containing the rewrite when it is non-null and the output otherwise. -/
def specMessages (systemPrompt : Option String) (ex : ExportExample) : List Message :=
  (match systemPrompt with
   | none => []
   | some s => if s = "" then [] else [{ role := "system", content := s }])
  ++ [{ role := "user", content := ex.input }]
  ++ [{ role := "assistant"
      , content := match ex.rewrite with
          | some rw => rw
          | none => ex.output }]

/-- A scored evaluation row as consumed by the aggregate step. -/
structure ScoredItemRow where
  preferred : Option String
  model_score : Option Nat
  baseline_score : Option Nat
deriving DecidableEq, Repr

/-- The aggregate output: win/loss/tie counts and optional averages. -/
structure EvaluationAggregate where
  modelWins : Nat
  baselineWins : Nat
  ties : Nat
  avgModelScore : Option ℚ
  avgBaselineScore : Option ℚ
deriving DecidableEq, Repr

/-- Modelled from the spec: the EvaluationEngine "Aggregate" operation
(the body of `getEvaluationResults`, whose source file is not among the
provided sources — only its consumer `ResultsReveal` is). Per the spec it
computes `modelWins`, `baselineWins`, `ties`, `avgModelScore` (mean over
items with a non-null model score, undefined when there are none) and
`avgBaselineScore` symmetrically. -/
def aggregateResults (items : List ScoredItemRow) : EvaluationAggregate :=
  let modelScores := items.filterMap ScoredItemRow.model_score
  let baselineScores := items.filterMap ScoredItemRow.baseline_score
  { modelWins := (items.filter (fun it => it.preferred == some "model")).length
  , baselineWins := (items.filter (fun it => it.preferred == some "baseline")).length
  , ties := (items.filter (fun it => it.preferred == some "tie")).length
  , avgModelScore :=
      if modelScores.isEmpty then none
      else some ((modelScores.map (fun n => (n : ℚ))).sum / (modelScores.length : ℚ))
  , avgBaselineScore :=
      if baselineScores.isEmpty then none
      else some ((baselineScores.map (fun n => (n : ℚ))).sum / (baselineScores.length : ℚ)) }

/-- A split value. -/
inductive SplitValue
  | train
  | val
deriving DecidableEq, Repr

/-- An example as seen by the split planner: id, rating, current split. -/
structure PlanExample where
  id : String
  rating : Option Nat
  split : Option SplitValue
deriving DecidableEq, Repr

/-- The split subsystem's typed errors, per the spec's error kinds. -/
inductive SplitError
  | PreconditionFailed (reason : String)
  | NotFound (reason : String)
  | Conflict (reason : String)
deriving DecidableEq, Repr

/-- Modelled from the spec: an example is locked when its `split` is set
and its id has been referenced by any evaluation (`referenced` is the set
of example ids appearing in evaluation records). -/
def isLocked (referenced : List String) (e : PlanExample) : Bool :=
  e.split.isSome && referenced.contains e.id

/-- Modelled from the spec: the split-planning write-back that applies a
batch of proposed split (re)assignments. No split-assignment source file
is among the provided sources, so this follows the spec's words: a locked
example targeted for reassignment is rejected with `Conflict` (not
silently skipped), and otherwise each targeted example receives its
proposed split while untargeted examples keep theirs. -/
def applySplitAssignments (referenced : List String) (examples : List PlanExample)
    (assignments : List (String × SplitValue)) : Except SplitError (List PlanExample) :=
  if assignments.any (fun a =>
      (examples.filter (fun e => e.id == a.1)).any (isLocked referenced)) then
    Except.error (SplitError.Conflict "locked example targeted for reassignment")
  else
    Except.ok (examples.map (fun e =>
      match assignments.find? (fun a => a.1 == e.id) with
      | some a => { e with split := some a.2 }
      | none => e))

/-- C3: the A/B arrangement computed by `getEvaluationItems` is a fixed
function of the item's identifier alone — `is_a_model` is true iff the
character code of the id's first character is even — independent of
`model_output`, `baseline_output`, the example map, or any other content,
and `output_a`/`output_b` are exactly `(model_output, baseline_output)`
permuted by that bit with nulls coalesced to the empty string. -/
theorem getEvaluationItems_side_assignment_from_id
    (m m' : String → Option String) (r r' : EvalItemRow) (c : Char) (cs : List Char)
    (hc : r.id.data = c :: cs) (hid : r'.id = r.id) :
    (toEvaluationItem m r).is_a_model = (c.toNat % 2 == 0) ∧
    (toEvaluationItem m' r').is_a_model = (toEvaluationItem m r).is_a_model ∧
    ((toEvaluationItem m r).output_a, (toEvaluationItem m r).output_b) =
      (if (toEvaluationItem m r).is_a_model
       then (r.model_output.getD "", r.baseline_output.getD "")
       else (r.baseline_output.getD "", r.model_output.getD "")) := by
  have h1 : isAModelOf r.id = (c.toNat % 2 == 0) := by
    unfold isAModelOf
    rw [hc]
  refine ⟨?_, ?_, ?_⟩
  · simpa [toEvaluationItem] using h1
  · simp [toEvaluationItem, isAModelOf, hid]
  · by_cases hb : isAModelOf r.id = true
    · simp [toEvaluationItem, hb]
    · simp [toEvaluationItem, hb]

/-- Witness for C3 at a concrete row: id `"b1"` has first character code
98 (even), so side A is the model and the outputs land unpermuted. -/
theorem getEvaluationItems_side_assignment_from_id_witness :
    (toEvaluationItem (fun _ => some "inp")
      { id := "b1", example_id := "e", model_output := some "M", baseline_output := some "B"
      , preferred := none, model_score := none, baseline_score := none }).is_a_model =
        ('b'.toNat % 2 == 0) ∧
    (toEvaluationItem (fun _ => none)
      { id := "b1", example_id := "e2", model_output := some "other"
      , baseline_output := none, preferred := some "tie", model_score := some 3
      , baseline_score := none }).is_a_model =
      (toEvaluationItem (fun _ => some "inp")
        { id := "b1", example_id := "e", model_output := some "M", baseline_output := some "B"
        , preferred := none, model_score := none, baseline_score := none }).is_a_model ∧
    ((toEvaluationItem (fun _ => some "inp")
        { id := "b1", example_id := "e", model_output := some "M", baseline_output := some "B"
        , preferred := none, model_score := none, baseline_score := none }).output_a,
     (toEvaluationItem (fun _ => some "inp")
        { id := "b1", example_id := "e", model_output := some "M", baseline_output := some "B"
        , preferred := none, model_score := none, baseline_score := none }).output_b) =
      (if (toEvaluationItem (fun _ => some "inp")
            { id := "b1", example_id := "e", model_output := some "M"
            , baseline_output := some "B", preferred := none, model_score := none
            , baseline_score := none }).is_a_model
       then ((some "M" : Option String).getD "", (some "B" : Option String).getD "")
       else ((some "B" : Option String).getD "", (some "M" : Option String).getD "")) :=
  getEvaluationItems_side_assignment_from_id
    (fun _ => some "inp") (fun _ => none)
    { id := "b1", example_id := "e", model_output := some "M", baseline_output := some "B"
    , preferred := none, model_score := none, baseline_score := none }
    { id := "b1", example_id := "e2", model_output := some "other", baseline_output := none
    , preferred := some "tie", model_score := some 3, baseline_score := none }
    'b' ['1'] rfl rfl

/-- C4: composed with the item's side bit, `saveEvaluationScore` records
the preference and scores for the output the rater actually saw — side a
persists `model` iff `is_a_model`, side b the opposite, tie stays tie, and
a provided side score lands on `model_score` iff that side shows the model. -/
theorem saveEvaluationScore_round_trip
    (m : String → Option String) (r : EvalItemRow) (uid : String)
    (choice : ABChoice) (sA sB : Option Nat) (rows : List ScoreRow) (row : ScoreRow)
    (hrow : row ∈ (saveEvaluationScore (some uid) (toEvaluationItem m r).id
        (toEvaluationItem m r).is_a_model choice sA sB rows).2)
    (hid : row.id = (toEvaluationItem m r).id) :
    (choice = ABChoice.a → row.preferred =
      some (if (toEvaluationItem m r).is_a_model then "model" else "baseline")) ∧
    (choice = ABChoice.b → row.preferred =
      some (if (toEvaluationItem m r).is_a_model then "baseline" else "model")) ∧
    (choice = ABChoice.tie → row.preferred = some "tie") ∧
    row.scored_by = some uid ∧
    (∀ v, (if (toEvaluationItem m r).is_a_model then sA else sB) = some v →
      row.model_score = some v) ∧
    (∀ v, (if (toEvaluationItem m r).is_a_model then sB else sA) = some v →
      row.baseline_score = some v) := by
  obtain ⟨x, hx, hfx⟩ := List.mem_map.1 hrow
  by_cases hxid : x.id = (toEvaluationItem m r).id
  · subst hfx
    refine ⟨?_, ?_, ?_, ?_, ?_, ?_⟩
    · rintro rfl
      simp [applyUpdate, hxid, buildUpdateData, modelPreferred]
    · rintro rfl
      simp [applyUpdate, hxid, buildUpdateData, modelPreferred]
    · rintro rfl
      simp [applyUpdate, hxid, buildUpdateData, modelPreferred]
    · simp [applyUpdate, hxid, buildUpdateData]
    · intro v hv
      simp [applyUpdate, hxid, buildUpdateData, hv]
    · intro v hv
      simp [applyUpdate, hxid, buildUpdateData, hv]
  · exfalso
    apply hxid
    rw [← hid, ← hfx]
    simp [applyUpdate, hxid]

/-- Witness for C4 at a concrete item and row: id `"b1"` gives
`is_a_model = true`, the rater prefers side b with score 7 on side a, so
the persisted preference is `baseline` and `model_score` becomes 7. -/
theorem saveEvaluationScore_round_trip_witness :
    (ABChoice.b = ABChoice.a →
      ({ id := "b1", preferred := some "baseline", scored_by := some "u"
       , model_score := some 7, baseline_score := none } : ScoreRow).preferred =
        some (if (toEvaluationItem (fun _ => none)
            { id := "b1", example_id := "e", model_output := none, baseline_output := none
            , preferred := none, model_score := none, baseline_score := none }).is_a_model
            then "model" else "baseline")) ∧
    (ABChoice.b = ABChoice.b →
      ({ id := "b1", preferred := some "baseline", scored_by := some "u"
       , model_score := some 7, baseline_score := none } : ScoreRow).preferred =
        some (if (toEvaluationItem (fun _ => none)
            { id := "b1", example_id := "e", model_output := none, baseline_output := none
            , preferred := none, model_score := none, baseline_score := none }).is_a_model
            then "baseline" else "model")) ∧
    (ABChoice.b = ABChoice.tie →
      ({ id := "b1", preferred := some "baseline", scored_by := some "u"
       , model_score := some 7, baseline_score := none } : ScoreRow).preferred =
        some "tie") ∧
    ({ id := "b1", preferred := some "baseline", scored_by := some "u"
     , model_score := some 7, baseline_score := none } : ScoreRow).scored_by = some "u" ∧
    (∀ v, (if (toEvaluationItem (fun _ => none)
        { id := "b1", example_id := "e", model_output := none, baseline_output := none
        , preferred := none, model_score := none, baseline_score := none }).is_a_model
        then (some 7 : Option Nat) else none) = some v →
      ({ id := "b1", preferred := some "baseline", scored_by := some "u"
       , model_score := some 7, baseline_score := none } : ScoreRow).model_score = some v) ∧
    (∀ v, (if (toEvaluationItem (fun _ => none)
        { id := "b1", example_id := "e", model_output := none, baseline_output := none
        , preferred := none, model_score := none, baseline_score := none }).is_a_model
        then (none : Option Nat) else some 7) = some v →
      ({ id := "b1", preferred := some "baseline", scored_by := some "u"
       , model_score := some 7, baseline_score := none } : ScoreRow).baseline_score = some v) :=
  saveEvaluationScore_round_trip (fun _ => none)
    { id := "b1", example_id := "e", model_output := none, baseline_output := none
    , preferred := none, model_score := none, baseline_score := none }
    "u" ABChoice.b (some 7) none
    [{ id := "b1", preferred := none, scored_by := none
     , model_score := none, baseline_score := none }]
    { id := "b1", preferred := some "baseline", scored_by := some "u"
    , model_score := some 7, baseline_score := none }
    (by simp [saveEvaluationScore, applyUpdate, buildUpdateData, toEvaluationItem,
      isAModelOf, modelPreferred])
    rfl

/-- C8: scoring the same item twice makes the second write fully
overwrite the first on every field it sets — `preferred` and `scored_by`
always carry the second call's values, each score carries the second
call's value whenever provided (falling back to the first write's value,
then the original, only when absent) — and rows with any other id are
untouched. -/
theorem saveEvaluationScore_second_write_overwrites
    (rows : List ScoreRow) (eid u1 u2 : String) (isA1 isA2 : Bool) (c1 c2 : ABChoice)
    (sA1 sB1 sA2 sB2 : Option Nat) :
    (saveEvaluationScore (some u2) eid isA2 c2 sA2 sB2
       (saveEvaluationScore (some u1) eid isA1 c1 sA1 sB1 rows).2).2 =
    rows.map (fun row =>
      if row.id = eid then
        { row with
          preferred := some (modelPreferred isA2 c2)
        , scored_by := some u2
        , model_score := match (if isA2 then sA2 else sB2) with
            | some v => some v
            | none => match (if isA1 then sA1 else sB1) with
              | some v => some v
              | none => row.model_score
        , baseline_score := match (if isA2 then sB2 else sA2) with
            | some v => some v
            | none => match (if isA1 then sB1 else sA1) with
              | some v => some v
              | none => row.baseline_score }
      else row) := by
  simp only [saveEvaluationScore, List.map_map]
  congr 1
  funext row
  by_cases h : row.id = eid
  · simp only [Function.comp_apply, applyUpdate, buildUpdateData, h, if_pos]
  · simp [applyUpdate, h]

/-- A hex digit is never a newline character. -/
lemma hexDigit_ne_newline : ∀ n < 16, hexDigit n ≠ '\n' := by decide

/-- `JSON.stringify` escaping never emits a raw newline character. -/
lemma newline_not_mem_escChar (c : Char) : '\n' ∉ escChar c := by
  unfold escChar
  split_ifs with h1 h2 h3 h4 h5 h6 h7 h8
  · decide
  · decide
  · decide
  · decide
  · decide
  · decide
  · decide
  · have hd1 := hexDigit_ne_newline (c.toNat / 16) (by omega)
    have hd2 := hexDigit_ne_newline (c.toNat % 16) (by omega)
    intro hmem
    simp only [List.mem_cons, List.not_mem_nil, or_false] at hmem
    rcases hmem with h | h | h | h | h | h
    · exact absurd h (by decide)
    · exact absurd h (by decide)
    · exact absurd h (by decide)
    · exact absurd h (by decide)
    · exact hd1 h.symm
    · exact hd2 h.symm
  · intro hmem
    rcases List.mem_cons.1 hmem with h | h
    · exact h5 (h.symm.trans (by decide))
    · exact absurd h (List.not_mem_nil _)

/-- A `JSON.stringify` string literal contains no raw newline. -/
lemma newline_not_mem_jsonQuote (s : String) : '\n' ∉ jsonQuote s := by
  unfold jsonQuote
  intro hmem
  rcases List.mem_cons.1 hmem with h | h
  · exact absurd h (by decide)
  · rcases List.mem_append.1 h with h | h
    · obtain ⟨c, _, hc⟩ := List.mem_flatMap.1 h
      exact newline_not_mem_escChar c hc
    · exact absurd h (by decide)

/-- A serialized message object contains no raw newline. -/
lemma newline_not_mem_stringifyMessage (m : Message) : '\n' ∉ stringifyMessage m := by
  unfold stringifyMessage
  intro hmem
  rcases List.mem_append.1 hmem with h | h
  · rcases List.mem_append.1 h with h | h
    · rcases List.mem_append.1 h with h | h
      · rcases List.mem_append.1 h with h | h
        · exact absurd h (by decide)
        · exact newline_not_mem_jsonQuote m.role h
      · exact absurd h (by decide)
    · exact newline_not_mem_jsonQuote m.content h
  · exact absurd h (by decide)

/-- `join` with a separator introduces no character beyond the separator
and the joined pieces. -/
lemma not_mem_joinSep {c : Char} {sep : List Char} (hsep : c ∉ sep) :
    ∀ (l : List (List Char)), (∀ x ∈ l, c ∉ x) → c ∉ joinSep sep l := by
  intro l
  induction l with
  | nil => intro _ h; exact absurd h (by simp [joinSep])
  | cons x xs ih =>
    intro hall
    cases xs with
    | nil => exact hall x (by simp)
    | cons y ys =>
      intro hmem
      simp only [joinSep, List.mem_append] at hmem
      rcases hmem with (h | h) | h
      · exact hall x (by simp) h
      · exact hsep h
      · exact ih (fun z hz => hall z (List.mem_cons_of_mem x hz)) h

/-- A serialized `\x7bmessages:[...]\x7d` object contains no raw newline. -/
lemma newline_not_mem_stringifyTrainingExample (ms : List Message) :
    '\n' ∉ stringifyTrainingExample ms := by
  unfold stringifyTrainingExample
  intro hmem
  simp only [List.mem_append] at hmem
  rcases hmem with (h | h) | h
  · exact absurd h (by decide)
  · refine not_mem_joinSep (by decide) (ms.map stringifyMessage) ?_ h
    intro x hx
    obtain ⟨msg, _, rfl⟩ := List.mem_map.1 hx
    exact newline_not_mem_stringifyMessage msg
  · exact absurd h (by decide)

/-- The message list the export builds coincides with the spec's reading
of it. -/
lemma exportMessages_eq_specMessages (systemPrompt : Option String) (ex : ExportExample) :
    exportMessages systemPrompt ex = specMessages systemPrompt ex := by
  cases systemPrompt <;> cases hrw : ex.rewrite <;>
    simp [exportMessages, specMessages, hrw, Option.getD]

/-- C9: `formatExamplesToJSONL` emits exactly one line per example —
the serialized `\x7bmessages:[...]\x7d` objects joined by a single newline,
none of which contains a raw newline itself — where each example's
messages are an optional leading system message (when a system prompt is
provided), then a user message with the example's input, then an
assistant message with the rewrite when non-null and the output
otherwise. -/
theorem formatExamplesToJSONL_one_line_per_example
    (examples : List ExportExample) (systemPrompt : Option String) :
    formatExamplesToJSONL examples systemPrompt =
      String.mk (joinSep ['\n'] (examples.map (fun ex =>
        stringifyTrainingExample (specMessages systemPrompt ex)))) ∧
    (examples.map (fun ex =>
      stringifyTrainingExample (specMessages systemPrompt ex))).length = examples.length ∧
    ∀ ex : ExportExample, '\n' ∉ stringifyTrainingExample (specMessages systemPrompt ex) := by
  refine ⟨?_, by simp, ?_⟩
  · unfold formatExamplesToJSONL
    simp only [exportMessages_eq_specMessages]
  · intro ex
    exact newline_not_mem_stringifyTrainingExample _

/-- C6: aggregating a run with zero scored items yields
`modelWins = 0`, `baselineWins = 0`, `ties = 0`, and both averages absent
(`none`, distinguishable from the number 0). -/
theorem aggregateResults_zero_scored
    (items : List ScoredItemRow)
    (h : ∀ it ∈ items, it.preferred = none ∧ it.model_score = none ∧ it.baseline_score = none) :
    aggregateResults items =
      { modelWins := 0, baselineWins := 0, ties := 0
      , avgModelScore := none, avgBaselineScore := none } := by
  unfold aggregateResults
  have hf : ∀ s : String, items.filter (fun it => it.preferred == some s) = [] := by
    intro s
    rw [List.filter_eq_nil_iff]
    intro it hit
    simp [(h it hit).1]
  have hm : items.filterMap ScoredItemRow.model_score = [] := by
    rw [List.filterMap_eq_nil_iff]
    intro it hit
    exact (h it hit).2.1
  have hb : items.filterMap ScoredItemRow.baseline_score = [] := by
    rw [List.filterMap_eq_nil_iff]
    intro it hit
    exact (h it hit).2.2
  simp [hf, hm, hb]

/-- Witness for C6 at a concrete run: one persisted but unscored item. -/
theorem aggregateResults_zero_scored_witness :
    aggregateResults [{ preferred := none, model_score := none, baseline_score := none }] =
      { modelWins := 0, baselineWins := 0, ties := 0
      , avgModelScore := none, avgBaselineScore := none } :=
  aggregateResults_zero_scored
    [{ preferred := none, model_score := none, baseline_score := none }]
    (by intro it hit; simp at hit; simp [hit])

/-- C2: a locked example — split set and referenced by an evaluation —
never has its split changed: a planning write-back that targets it for
reassignment is rejected with `Conflict`, and any write-back that
succeeds leaves the example, split value included, in the store
unchanged. -/
theorem splitPlanner_locked_split_immutable
    (referenced : List String) (examples : List PlanExample)
    (assignments : List (String × SplitValue)) (e : PlanExample)
    (he : e ∈ examples) (hlock : isLocked referenced e = true) :
    ((∃ p ∈ assignments, p.1 = e.id) →
      applySplitAssignments referenced examples assignments =
        Except.error (SplitError.Conflict "locked example targeted for reassignment")) ∧
    (∀ examples', applySplitAssignments referenced examples assignments = Except.ok examples' →
      e ∈ examples') := by
  constructor
  · rintro ⟨p, hp, hpid⟩
    unfold applySplitAssignments
    rw [if_pos]
    refine List.any_eq_true.2 ⟨p, hp, ?_⟩
    refine List.any_eq_true.2 ⟨e, ?_, hlock⟩
    refine List.mem_filter.2 ⟨he, ?_⟩
    simp [hpid]
  · intro examples' hok
    unfold applySplitAssignments at hok
    by_cases hguard : assignments.any (fun a =>
        (examples.filter (fun x => x.id == a.1)).any (isLocked referenced)) = true
    · rw [if_pos hguard] at hok
      exact absurd hok (by simp)
    · rw [if_neg hguard] at hok
      have hmap : examples' = examples.map (fun x =>
          match assignments.find? (fun a => a.1 == x.id) with
          | some a => { x with split := some a.2 }
          | none => x) := by
        cases hok
        rfl
      have hnone : assignments.find? (fun a => a.1 == e.id) = none := by
        rcases hfind : assignments.find? (fun a => a.1 == e.id) with _ | a
        · exact hfind
        · exfalso
          apply hguard
          refine List.any_eq_true.2 ⟨a, List.mem_of_find?_eq_some hfind, ?_⟩
          refine List.any_eq_true.2 ⟨e, List.mem_filter.2 ⟨he, ?_⟩, hlock⟩
          have haeq := List.find?_some hfind
          simp only [beq_iff_eq] at haeq ⊢
          exact haeq.symm
      rw [hmap]
      refine List.mem_map.2 ⟨e, he, ?_⟩
      simp only [hnone]

/-- Witness for C2 at a concrete store: example `ex1` has `split = val`
and is referenced by an evaluation; reassigning it to `train` is rejected
with `Conflict`, and the only successful write-back is the one that does
not target it. -/
theorem splitPlanner_locked_split_immutable_witness :
    ((∃ p ∈ [("ex1", SplitValue.train)], p.1 =
        ({ id := "ex1", rating := some 5, split := some SplitValue.val } : PlanExample).id) →
      applySplitAssignments ["ex1"]
        [{ id := "ex1", rating := some 5, split := some SplitValue.val }]
        [("ex1", SplitValue.train)] =
        Except.error (SplitError.Conflict "locked example targeted for reassignment")) ∧
    (∀ examples', applySplitAssignments ["ex1"]
        [{ id := "ex1", rating := some 5, split := some SplitValue.val }]
        [("ex1", SplitValue.train)] = Except.ok examples' →
      ({ id := "ex1", rating := some 5, split := some SplitValue.val } : PlanExample) ∈
        examples') :=
  splitPlanner_locked_split_immutable ["ex1"]
    [{ id := "ex1", rating := some 5, split := some SplitValue.val }]
    [("ex1", SplitValue.train)]
    { id := "ex1", rating := some 5, split := some SplitValue.val }
    (by simp) (by decide)

/-- If the provider fails on any validation example (either call of the
pair), the generation loop stops with an error. -/
lemma generateRecords_error_of_fail (fetchF : Fetch) (mA mB : ModelOption)
    (pid rid : String) (sp : Option String) :
    ∀ exs : List ExampleRow,
      (∃ ex ∈ exs,
        isError (generateCompletion (fetchF mA.model_id (mkMessages sp ex.input))) = true ∨
        isError (generateCompletion (fetchF mB.model_id (mkMessages sp ex.input))) = true) →
      ∃ e, generateRecords fetchF mA mB pid rid sp exs = Except.error e := by
  intro exs
  induction exs with
  | nil =>
    rintro ⟨ex, hmem, _⟩
    exact absurd hmem (List.not_mem_nil _)
  | cons ex rest ih =>
    rintro ⟨x, hx, hfail⟩
    cases hA : generateCompletion (fetchF mA.model_id (mkMessages sp ex.input)) with
    | error e => exact ⟨e, by simp [generateRecords, hA]⟩
    | ok outA =>
      cases hB : generateCompletion (fetchF mB.model_id (mkMessages sp ex.input)) with
      | error e => exact ⟨e, by simp [generateRecords, hA, hB]⟩
      | ok outB =>
        rcases List.mem_cons.1 hx with rfl | hxrest
        · rcases hfail with h | h
          · rw [hA] at h
            exact absurd h (by simp [isError])
          · rw [hB] at h
            exact absurd h (by simp [isError])
        · obtain ⟨e, he⟩ := ih ⟨x, hxrest, hfail⟩
          exact ⟨e, by simp [generateRecords, hA, hB, he]⟩

/-- C1: whenever the provider fails for at least one validation example,
`startEvaluation` returns a failure and the evaluations store is left
exactly as it was — no partial batch is inserted. -/
theorem startEvaluation_aborts_on_generation_failure
    (u : String) (db : Db) (projectId modelAId modelBId : String) (fetchF : Fetch)
    (project : Project) (hp : db.project = some project)
    (modelA modelB : ModelOption)
    (hA : (buildModelOptions project.base_model db.runs).find?
      (fun m => m.id == modelAId) = some modelA)
    (hB : (buildModelOptions project.base_model db.runs).find?
      (fun m => m.id == modelBId) = some modelB)
    (hfail : ∃ ex ∈ valExamples db,
      isError (generateCompletion (fetchF modelA.model_id
        (mkMessages project.system_prompt ex.input))) = true ∨
      isError (generateCompletion (fetchF modelB.model_id
        (mkMessages project.system_prompt ex.input))) = true) :
    (startEvaluation (some u) db projectId modelAId modelBId fetchF).1.success = false ∧
    (startEvaluation (some u) db projectId modelAId modelBId fetchF).2.evaluations =
      db.evaluations := by
  obtain ⟨e, he⟩ := generateRecords_error_of_fail fetchF modelA modelB projectId
    (if modelA.type = ModelKind.fineTuned then modelAId else modelBId)
    project.system_prompt (valExamples db) hfail
  unfold startEvaluation
  simp only [hp]
  cases hkey : project.api_key with
  | none => simp [failResult]
  | some k =>
    by_cases hk : k = ""
    · simp [hk, failResult]
    · by_cases hval : (valExamples db).isEmpty
      · simp [hk, hval, failResult]
      · simp [hk, hval, hA, hB, he, failResult]

/-- Witness for C1 at a concrete store and failing provider: one
validation example, the provider returns HTTP failure, the call fails and
the (empty) evaluations store stays empty. -/
theorem startEvaluation_aborts_on_generation_failure_witness :
    (startEvaluation (some "u")
      { project := some { base_model := "bm", system_prompt := none, api_key := some "k" }
      , examples := [{ id := "e1", input := "hi", split := some "val" }]
      , runs := [], evaluations := [] } "p" "baseline" "baseline"
      (fun _ _ => { ok := false, errText := "boom", choices := [] })).1.success = false ∧
    (startEvaluation (some "u")
      { project := some { base_model := "bm", system_prompt := none, api_key := some "k" }
      , examples := [{ id := "e1", input := "hi", split := some "val" }]
      , runs := [], evaluations := [] } "p" "baseline" "baseline"
      (fun _ _ => { ok := false, errText := "boom", choices := [] })).2.evaluations =
      ({ project := some { base_model := "bm", system_prompt := none, api_key := some "k" }
       , examples := [{ id := "e1", input := "hi", split := some "val" }]
       , runs := [], evaluations := [] } : Db).evaluations :=
  startEvaluation_aborts_on_generation_failure "u"
    { project := some { base_model := "bm", system_prompt := none, api_key := some "k" }
    , examples := [{ id := "e1", input := "hi", split := some "val" }]
    , runs := [], evaluations := [] }
    "p" "baseline" "baseline"
    (fun _ _ => { ok := false, errText := "boom", choices := [] })
    { base_model := "bm", system_prompt := none, api_key := some "k" } rfl
    { id := "baseline", label := "Baseline (bm)", type := ModelKind.baseline
    , model_id := "bm" }
    { id := "baseline", label := "Baseline (bm)", type := ModelKind.baseline
    , model_id := "bm" }
    (by decide) (by decide)
    ⟨{ id := "e1", input := "hi", split := some "val" }, by decide, Or.inl (by decide)⟩

/-- C7: with a valid project and API key but an empty validation split,
`startEvaluation` returns the typed "No validation examples found"
failure and leaves the store untouched. -/
theorem startEvaluation_no_validation_examples
    (u : String) (db : Db) (projectId modelAId modelBId : String) (fetchF : Fetch)
    (project : Project) (hp : db.project = some project)
    (k : String) (hkey : project.api_key = some k) (hk : k ≠ "")
    (hval : valExamples db = []) :
    startEvaluation (some u) db projectId modelAId modelBId fetchF =
      (failResult "No validation examples found", db) := by
  unfold startEvaluation
  simp only [hp, hkey]
  rw [if_neg hk]
  simp [hval]

/-- Witness for C7 at a concrete store whose only example is in the train
split. -/
theorem startEvaluation_no_validation_examples_witness :
    startEvaluation (some "u")
      { project := some { base_model := "bm", system_prompt := none, api_key := some "k" }
      , examples := [{ id := "e1", input := "hi", split := some "train" }]
      , runs := [], evaluations := [] } "p" "baseline" "baseline"
      (fun _ _ => { ok := true, errText := "", choices := [] }) =
      (failResult "No validation examples found",
       { project := some { base_model := "bm", system_prompt := none, api_key := some "k" }
       , examples := [{ id := "e1", input := "hi", split := some "train" }]
       , runs := [], evaluations := [] }) :=
  startEvaluation_no_validation_examples "u"
    { project := some { base_model := "bm", system_prompt := none, api_key := some "k" }
    , examples := [{ id := "e1", input := "hi", split := some "train" }]
    , runs := [], evaluations := [] }
    "p" "baseline" "baseline"
    (fun _ _ => { ok := true, errText := "", choices := [] })
    { base_model := "bm", system_prompt := none, api_key := some "k" } rfl
    "k" rfl (by decide) (by decide)

/-- When every provider response is HTTP-ok with an empty-or-contentless
choices list, the generation loop succeeds and every record's outputs are
the empty string. -/
lemma generateRecords_degenerate (fetchF : Fetch) (mA mB : ModelOption)
    (pid rid : String) (sp : Option String)
    (hfetch : ∀ m msgs, (fetchF m msgs).ok = true ∧
      ((fetchF m msgs).choices.head?.bind ChatChoice.content) = none) :
    ∀ exs : List ExampleRow,
      generateRecords fetchF mA mB pid rid sp exs =
        Except.ok (exs.map (fun ex =>
          { project_id := pid, training_run_id := rid, example_id := ex.id
          , model_output := "", baseline_output := "" })) := by
  intro exs
  induction exs with
  | nil => rfl
  | cons ex rest ih =>
    have hgA : generateCompletion (fetchF mA.model_id (mkMessages sp ex.input)) =
        Except.ok "" := by
      have h := hfetch mA.model_id (mkMessages sp ex.input)
      unfold generateCompletion
      rw [if_pos h.1, h.2]
      rfl
    have hgB : generateCompletion (fetchF mB.model_id (mkMessages sp ex.input)) =
        Except.ok "" := by
      have h := hfetch mB.model_id (mkMessages sp ex.input)
      unfold generateCompletion
      rw [if_pos h.1, h.2]
      rfl
    simp [generateRecords, hgA, hgB, ih]

/-- C10: an HTTP-success response with an empty or missing choices list
(or missing message content) makes `generateCompletion` return the empty
string rather than an error, so `startEvaluation` treats every example as
generated and persists one record per validation example with empty
`model_output` and `baseline_output` — the degenerate response is never
reported as a generation failure. -/
theorem startEvaluation_persists_empty_on_degenerate_response
    (u : String) (db : Db) (projectId modelAId modelBId : String) (fetchF : Fetch)
    (project : Project) (hp : db.project = some project)
    (k : String) (hkey : project.api_key = some k) (hk : k ≠ "")
    (modelA modelB : ModelOption)
    (hA : (buildModelOptions project.base_model db.runs).find?
      (fun m => m.id == modelAId) = some modelA)
    (hB : (buildModelOptions project.base_model db.runs).find?
      (fun m => m.id == modelBId) = some modelB)
    (hne : (valExamples db).isEmpty = false)
    (hfetch : ∀ m msgs, (fetchF m msgs).ok = true ∧
      ((fetchF m msgs).choices.head?.bind ChatChoice.content) = none) :
    (∀ resp : FetchResponse, resp.ok = true →
      resp.choices.head?.bind ChatChoice.content = none →
      generateCompletion resp = Except.ok "") ∧
    (startEvaluation (some u) db projectId modelAId modelBId fetchF).1.success = true ∧
    (startEvaluation (some u) db projectId modelAId modelBId fetchF).2.evaluations =
      db.evaluations ++ (valExamples db).map (fun ex =>
        { project_id := projectId
        , training_run_id := if modelA.type = ModelKind.fineTuned then modelAId else modelBId
        , example_id := ex.id
        , model_output := ""
        , baseline_output := "" }) := by
  refine ⟨?_, ?_⟩
  · intro resp hok hnone
    unfold generateCompletion
    rw [if_pos hok, hnone]
    rfl
  · have hgen := generateRecords_degenerate fetchF modelA modelB projectId
      (if modelA.type = ModelKind.fineTuned then modelAId else modelBId)
      project.system_prompt hfetch (valExamples db)
    unfold startEvaluation
    simp only [hp, hkey]
    rw [if_neg hk]
    cases hex : valExamples db with
    | nil => rw [hex] at hne; exact absurd hne (by simp)
    | cons e0 erest =>
      rw [hex] at hgen
      simp [hex, hgen, hA, hB, hk]

/-- Witness for C10 at a concrete store: the provider answers HTTP 200
with `choices: []`; the run succeeds and persists one record whose
outputs are both the empty string. -/
theorem startEvaluation_persists_empty_on_degenerate_response_witness :
    (∀ resp : FetchResponse, resp.ok = true →
      resp.choices.head?.bind ChatChoice.content = none →
      generateCompletion resp = Except.ok "") ∧
    (startEvaluation (some "u")
      { project := some { base_model := "bm", system_prompt := none, api_key := some "k" }
      , examples := [{ id := "e1", input := "hi", split := some "val" }]
      , runs := [], evaluations := [] } "p" "baseline" "baseline"
      (fun _ _ => { ok := true, errText := "", choices := [] })).1.success = true ∧
    (startEvaluation (some "u")
      { project := some { base_model := "bm", system_prompt := none, api_key := some "k" }
      , examples := [{ id := "e1", input := "hi", split := some "val" }]
      , runs := [], evaluations := [] } "p" "baseline" "baseline"
      (fun _ _ => { ok := true, errText := "", choices := [] })).2.evaluations =
      ({ project := some { base_model := "bm", system_prompt := none, api_key := some "k" }
       , examples := [{ id := "e1", input := "hi", split := some "val" }]
       , runs := [], evaluations := [] } : Db).evaluations ++
      (valExamples
        { project := some { base_model := "bm", system_prompt := none, api_key := some "k" }
        , examples := [{ id := "e1", input := "hi", split := some "val" }]
        , runs := [], evaluations := [] }).map (fun ex =>
        { project_id := "p"
        , training_run_id := "baseline"
        , example_id := ex.id
        , model_output := ""
        , baseline_output := "" }) :=
  startEvaluation_persists_empty_on_degenerate_response "u"
    { project := some { base_model := "bm", system_prompt := none, api_key := some "k" }
    , examples := [{ id := "e1", input := "hi", split := some "val" }]
    , runs := [], evaluations := [] }
    "p" "baseline" "baseline"
    (fun _ _ => { ok := true, errText := "", choices := [] })
    { base_model := "bm", system_prompt := none, api_key := some "k" } rfl
    "k" rfl (by decide)
    { id := "baseline", label := "Baseline (bm)", type := ModelKind.baseline
    , model_id := "bm" }
    { id := "baseline", label := "Baseline (bm)", type := ModelKind.baseline
    , model_id := "bm" }
    (by decide) (by decide) (by decide)
    (fun m msgs => ⟨rfl, rfl⟩)

/-- C5 counterexample: both selections are the very same model reference
`"run-1"` — an existing completed training run, so `training_run_id`
refers to a real run and the insert is valid — and both resolve to the
same underlying model `"ft-model"`; yet `startEvaluation` succeeds, runs
generation for that one model twice, and persists a record. It does not
fail with a "models must differ" precondition and does not leave the
store unchanged. -/
theorem startEvaluation_same_model_counterexample :
    (startEvaluation (some "u")
      { project := some { base_model := "bm", system_prompt := none, api_key := some "k" }
      , examples := [{ id := "e1", input := "hi", split := some "val" }]
      , runs := [{ id := "run-1", model_id := some "ft-model" }]
      , evaluations := [] } "p" "run-1" "run-1"
      (fun _ _ => { ok := true, errText := "", choices := [{ content := some "out" }] })).1 =
      { success := true, evaluationId := some "run-1", error := none } ∧
    (startEvaluation (some "u")
      { project := some { base_model := "bm", system_prompt := none, api_key := some "k" }
      , examples := [{ id := "e1", input := "hi", split := some "val" }]
      , runs := [{ id := "run-1", model_id := some "ft-model" }]
      , evaluations := [] } "p" "run-1" "run-1"
      (fun _ _ => { ok := true, errText := "", choices := [{ content := some "out" }] })).2.evaluations =
      [{ project_id := "p", training_run_id := "run-1", example_id := "e1"
       , model_output := "out", baseline_output := "out" }] := by
  constructor
  · rfl
  · rfl

/-- If every provider response is HTTP-ok, the generation loop succeeds
with one record per example. -/
lemma generateRecords_ok_of_fetch_ok (fetchF : Fetch) (mA mB : ModelOption)
    (pid rid : String) (sp : Option String)
    (hfetch : ∀ m msgs, (fetchF m msgs).ok = true) :
    ∀ exs : List ExampleRow, ∃ recs,
      generateRecords fetchF mA mB pid rid sp exs = Except.ok recs ∧
      recs.length = exs.length := by
  intro exs
  induction exs with
  | nil => exact ⟨[], rfl, rfl⟩
  | cons ex rest ih =>
    obtain ⟨recs, hrecs, hlen⟩ := ih
    have hgA : generateCompletion (fetchF mA.model_id (mkMessages sp ex.input)) =
        Except.ok ((((fetchF mA.model_id (mkMessages sp ex.input)).choices.head?).bind
          ChatChoice.content).getD "") := by
      unfold generateCompletion
      rw [if_pos (hfetch _ _)]
    have hgB : generateCompletion (fetchF mB.model_id (mkMessages sp ex.input)) =
        Except.ok ((((fetchF mB.model_id (mkMessages sp ex.input)).choices.head?).bind
          ChatChoice.content).getD "") := by
      unfold generateCompletion
      rw [if_pos (hfetch _ _)]
    refine ⟨{ project_id := pid
            , training_run_id := rid
            , example_id := ex.id
            , model_output := if mA.type = ModelKind.fineTuned
                then ((fetchF mA.model_id (mkMessages sp ex.input)).choices.head?.bind
                  ChatChoice.content).getD ""
                else ((fetchF mB.model_id (mkMessages sp ex.input)).choices.head?.bind
                  ChatChoice.content).getD ""
            , baseline_output := if mA.type = ModelKind.baseline
                then ((fetchF mA.model_id (mkMessages sp ex.input)).choices.head?.bind
                  ChatChoice.content).getD ""
                else ((fetchF mB.model_id (mkMessages sp ex.input)).choices.head?.bind
                  ChatChoice.content).getD "" } :: recs, ?_, ?_⟩
    · simp only [generateRecords, hgA, hgB, hrecs]
    · simp [hlen]

/-- C5 amended: `startEvaluation` performs no identical-model check — the
"models must differ" guard lives only in the eval-setup client UI, whose
`canStart` is false whenever the two selected references are equal; the
server action itself, invoked with the same resolvable model reference on
both sides (in particular the same completed fine-tuned run, so both
sides are the same underlying model) and a reachable provider, succeeds,
runs generation for the single model twice, and persists one record per
validation example. -/
theorem startEvaluation_no_identical_model_check
    (u : String) (db : Db) (projectId modelRef : String) (fetchF : Fetch)
    (project : Project) (hp : db.project = some project)
    (k : String) (hkey : project.api_key = some k) (hk : k ≠ "")
    (modelOpt : ModelOption)
    (hA : (buildModelOptions project.base_model db.runs).find?
      (fun m => m.id == modelRef) = some modelOpt)
    (hne : (valExamples db).isEmpty = false)
    (hfetch : ∀ m msgs, (fetchF m msgs).ok = true) :
    (∀ (a : String) (cnt : Nat) (g : Bool), canStart a a cnt g = false) ∧
    (startEvaluation (some u) db projectId modelRef modelRef fetchF).1.success = true ∧
    (startEvaluation (some u) db projectId modelRef modelRef fetchF).2.evaluations.length =
      db.evaluations.length + (valExamples db).length := by
  refine ⟨?_, ?_⟩
  · intro a cnt g
    simp [canStart]
  · obtain ⟨recs, hrecs, hlen⟩ := generateRecords_ok_of_fetch_ok fetchF modelOpt modelOpt
      projectId modelRef project.system_prompt hfetch (valExamples db)
    unfold startEvaluation
    simp only [hp, hkey]
    rw [if_neg hk]
    cases hex : valExamples db with
    | nil => rw [hex] at hne; exact absurd hne (by simp)
    | cons e0 erest =>
      rw [hex] at hrecs hlen
      cases recs with
      | nil => exact absurd hlen (by simp)
      | cons r0 rrest =>
        simp [hex, hA, hrecs, hlen]

/-- Witness for the amended C5 at a concrete store: both sides select the
completed run `"run-1"` (one underlying model); the invocation succeeds
and grows the evaluations store by one record, while the UI guard refuses
the equal selection. -/
theorem startEvaluation_no_identical_model_check_witness :
    (∀ (a : String) (cnt : Nat) (g : Bool), canStart a a cnt g = false) ∧
    (startEvaluation (some "u")
      { project := some { base_model := "bm", system_prompt := none, api_key := some "k" }
      , examples := [{ id := "e1", input := "hi", split := some "val" }]
      , runs := [{ id := "run-1", model_id := some "ft-model" }]
      , evaluations := [] } "p" "run-1" "run-1"
      (fun _ _ => { ok := true, errText := "", choices := [{ content := some "out" }] })).1.success =
      true ∧
    (startEvaluation (some "u")
      { project := some { base_model := "bm", system_prompt := none, api_key := some "k" }
      , examples := [{ id := "e1", input := "hi", split := some "val" }]
      , runs := [{ id := "run-1", model_id := some "ft-model" }]
      , evaluations := [] } "p" "run-1" "run-1"
      (fun _ _ => { ok := true, errText := "", choices := [{ content := some "out" }] })).2.evaluations.length =
      ({ project := some { base_model := "bm", system_prompt := none, api_key := some "k" }
       , examples := [{ id := "e1", input := "hi", split := some "val" }]
       , runs := [{ id := "run-1", model_id := some "ft-model" }]
       , evaluations := [] } : Db).evaluations.length +
      (valExamples
        { project := some { base_model := "bm", system_prompt := none, api_key := some "k" }
        , examples := [{ id := "e1", input := "hi", split := some "val" }]
        , runs := [{ id := "run-1", model_id := some "ft-model" }]
        , evaluations := [] }).length :=
  startEvaluation_no_identical_model_check "u"
    { project := some { base_model := "bm", system_prompt := none, api_key := some "k" }
    , examples := [{ id := "e1", input := "hi", split := some "val" }]
    , runs := [{ id := "run-1", model_id := some "ft-model" }]
    , evaluations := [] }
    "p" "run-1"
    (fun _ _ => { ok := true, errText := "", choices := [{ content := some "out" }] })
    { base_model := "bm", system_prompt := none, api_key := some "k" } rfl
    "k" rfl (by decide)
    { id := "run-1", label := "Version 1 (ft-model...)", type := ModelKind.fineTuned
    , model_id := "ft-model" }
    (by decide) (by decide) (fun _ _ => rfl)

end Aitelier
